import Mathlib

/-!
Shallow embedding of the analytics core of the NexusAI project
(`src/ai-analytics.ts`), together with theorems settling the spec claims
about sprint health scoring, workload balancing, issue-text classification
and release-note categorization.

Issues are modelled as records carrying exactly the fields the analytics
core reads.  JavaScript numbers are modelled as `Nat`/`Int` for counters
and `ℚ`/`ℝ` for fractional arithmetic; `Math.round` is `round` (both are
`⌊x + 1/2⌋` on the values that occur here); `Math.max/min` clamping is
`max`/`min`.
-/

namespace NexusAI

/-- A Jira issue as seen by the analytics core: exactly the fields that
`ai-analytics.ts` reads (`fields.status.name`, `fields.assignee`,
`fields.priority`, `fields.issuetype.name`, `fields.labels`,
`key`, `fields.summary`, `fields.description`). -/
structure Issue where
  key : String
  summary : String
  statusName : String
  assignee : Option String
  priority : Option String
  issuetype : String
  labels : List String
  description : Option String
deriving Repr, DecidableEq

/-! ### String helpers

The analytics core only ever lowercases and substring-tests ASCII status
names, labels and keyword lists, so JavaScript's `toLowerCase` and
`String.prototype.includes` are modelled by ASCII case mapping and
character-list infix search. -/

/-- JavaScript `s.toLowerCase()` on the ASCII strings the core handles:
map `Char.toLower` over the characters.  (Extensionally this is Lean's
`String.toLower`; it is written via the character list so that concrete
instances reduce by `decide`.) -/
def lowerStr (s : String) : String :=
  String.mk (s.data.map Char.toLower)

/-- Does `hay` start with `needle`? -/
def listStartsWith : List Char → List Char → Bool
  | _, [] => true
  | [], _ :: _ => false
  | a :: as, b :: bs => a == b && listStartsWith as bs

/-- Does `hay` contain `needle` as a contiguous subsequence? -/
def listContainsSeq : List Char → List Char → Bool
  | [], needle => needle.isEmpty
  | h :: t, needle => listStartsWith (h :: t) needle || listContainsSeq t needle

/-- JavaScript `s.includes(sub)`: substring containment. -/
def strIncludes (s sub : String) : Bool :=
  listContainsSeq s.data sub.data

/-! ### Sprint health analyzer (`analyzeSprintHealth`, lines 136-272) -/

/-- The four buckets of the sprint-health issue breakdown. -/
inductive Bucket where
  | done
  | inProgress
  | blocked
  | todo
deriving Repr, DecidableEq

/-- The status classification of `analyzeSprintHealth` (lines 168-179):
lowercase the status name, then walk the if/else-if chain. -/
def classifyStatus (name : String) : Bucket :=
  if lowerStr name = "done" ∨ lowerStr name = "closed" ∨ lowerStr name = "resolved" then
    Bucket.done
  else if lowerStr name = "in progress" ∨ lowerStr name = "in review" ∨
      lowerStr name = "code review" then
    Bucket.inProgress
  else if lowerStr name = "blocked" ∨ lowerStr name = "impediment" then
    Bucket.blocked
  else
    Bucket.todo

/-- The `issueBreakdown` record of `analyzeSprintHealth` (lines 156-162). -/
structure IssueBreakdown where
  total : Nat
  done : Nat
  inProgress : Nat
  todo : Nat
  blocked : Nat
deriving Repr, DecidableEq

/-- One iteration of the classification loop (lines 167-179): increment
exactly the counter of the issue's bucket. -/
def bdStep (bd : IssueBreakdown) (i : Issue) : IssueBreakdown :=
  match classifyStatus i.statusName with
  | Bucket.done => { bd with done := bd.done + 1 }
  | Bucket.inProgress => { bd with inProgress := bd.inProgress + 1 }
  | Bucket.blocked => { bd with blocked := bd.blocked + 1 }
  | Bucket.todo => { bd with todo := bd.todo + 1 }

/-- The issue breakdown computed by `analyzeSprintHealth`: `total` is set
to `issues.length` up front (line 157) and the loop increments one bucket
counter per issue. -/
def issueBreakdown (issues : List Issue) : IssueBreakdown :=
  issues.foldl bdStep
    { total := issues.length, done := 0, inProgress := 0, todo := 0, blocked := 0 }

/-- The per-issue risk strings appended by the loop body (lines 181-189):
`status` here is the already-lowercased status name, and the guard is the
exact string comparison `status !== 'done'`. -/
def issueRisks (i : Issue) : List String :=
  (if i.assignee = none ∧ lowerStr i.statusName ≠ "done" then
      ["Unassigned issue: " ++ i.key]
    else []) ++
  (if i.priority = none ∧ lowerStr i.statusName ≠ "done" then
      ["No priority set: " ++ i.key]
    else [])

/-- The risk list accumulated by the classification loop, in issue order
(lines 164-190). -/
def sprintRisks : List Issue → List String
  | [] => []
  | i :: rest => issueRisks i ++ sprintRisks rest

/-- `completionRate` (lines 193-195): `Math.round((done / total) * 100)`,
with `0` substituted when `total` is `0`. -/
def completionRate (bd : IssueBreakdown) : ℤ :=
  if bd.total > 0 then round (((bd.done : ℚ) / (bd.total : ℚ)) * 100) else 0

/-- The health score before clamping (lines 198-216): start at 100,
subtract `max(0, 50 - completionRate)`, `5` per blocked issue, `10` on
WIP overload (`inProgress > length * 0.4`) and `10` when
`todo > done` and `completionRate < 50`. -/
def healthScoreRaw (issues : List Issue) : ℤ :=
  let bd := issueBreakdown issues
  let cr := completionRate bd
  let s1 := 100 - max 0 (50 - cr)
  let s2 := s1 - 5 * (bd.blocked : ℤ)
  let s3 := if (bd.inProgress : ℚ) > (issues.length : ℚ) * (2 / 5) then s2 - 10 else s2
  if bd.todo > bd.done ∧ cr < 50 then s3 - 10 else s3

/-- The final health score (line 218):
`Math.max(0, Math.min(100, healthScore))`. -/
def healthScore (issues : List Issue) : ℤ :=
  max 0 (min 100 (healthScoreRaw issues))

/-- The four health-status bands. -/
inductive HealthStatus where
  | excellent
  | good
  | atRisk
  | critical
deriving Repr, DecidableEq

/-- `healthStatus` thresholds on the clamped score (lines 221-225). -/
def healthStatus (score : ℤ) : HealthStatus :=
  if score ≥ 80 then HealthStatus.excellent
  else if score ≥ 60 then HealthStatus.good
  else if score ≥ 40 then HealthStatus.atRisk
  else HealthStatus.critical

/-! ### Team workload dashboard (`generateWorkloadDashboard`, lines 279-430) -/

/-- The four workload bands. -/
inductive WorkloadBand where
  | underutilized
  | optimal
  | heavy
  | overloaded
deriving Repr, DecidableEq

/-- `workloadStatus` thresholds on the assigned-issue count
(lines 346-358). -/
def workloadStatus (assignedIssues : Nat) : WorkloadBand :=
  if assignedIssues ≤ 2 then WorkloadBand.underutilized
  else if assignedIssues ≤ 5 then WorkloadBand.optimal
  else if assignedIssues ≤ 8 then WorkloadBand.heavy
  else WorkloadBand.overloaded

/-- The in-progress test of the workload dashboard (line 333):
`status.includes('progress') || status.includes('review')` on the
lowercased status name. -/
def countsInProgressWorkload (statusName : String) : Bool :=
  strIncludes (lowerStr statusName) "progress" || strIncludes (lowerStr statusName) "review"

/-- One insertion into the assignee map (lines 303-310).  JavaScript's
`Map` keeps keys in insertion order and `push` appends, which the
association list mirrors. -/
def insertAssign (m : List (String × List Issue)) (name : String) (i : Issue) :
    List (String × List Issue) :=
  match m with
  | [] => [(name, [i])]
  | (k, g) :: rest =>
    if k = name then (k, g ++ [i]) :: rest else (k, g) :: insertAssign rest name i

/-- The grouping loop (lines 302-311): issues whose `assignee` is absent
are skipped. -/
def groupByAssigneeAux (acc : List (String × List Issue)) : List Issue → List (String × List Issue)
  | [] => acc
  | i :: rest =>
    match i.assignee with
    | none => groupByAssigneeAux acc rest
    | some name => groupByAssigneeAux (insertAssign acc name i) rest

/-- Partition of the fetched issues by assignee display name. -/
def groupByAssignee (issues : List Issue) : List (String × List Issue) :=
  groupByAssigneeAux [] issues

/-- The discrete part of the returned `TeamWorkloadDashboard`
(lines 419-429): `teamSize = assigneeMap.size`,
`totalIssues = issues.length`, and `workloads` is the per-member
`assignedIssues = memberIssues.length` in map order (lines 317-377). -/
structure DashboardCore where
  teamSize : Nat
  totalIssues : Nat
  workloads : List Nat
deriving Repr, DecidableEq

def dashboardCore (issues : List Issue) : DashboardCore :=
  { teamSize := (groupByAssignee issues).length
    totalIssues := issues.length
    workloads := (groupByAssignee issues).map (fun g => g.2.length) }

/-- The population variance of the per-member workloads
(lines 380-386): both the mean and the variance substitute `0` when the
list is empty. -/
def popVariance (ws : List ℚ) : ℚ :=
  if ws.length = 0 then 0
  else
    ((ws.map (fun w => (w - ws.sum / ws.length) ^ 2)).sum) / ws.length

/-- `stdDev = Math.sqrt(variance)` (line 388). -/
noncomputable def stdDev (ws : List ℚ) : ℝ :=
  Real.sqrt ((popVariance ws : ℚ) : ℝ)

/-- The clamped balance score before rounding (line 389):
`Math.max(0, Math.min(100, 100 - stdDev * 10))`. -/
noncomputable def balanceScoreReal (ws : List ℚ) : ℝ :=
  max 0 (min 100 (100 - stdDev ws * 10))

/-- The returned `balanceScore` (line 426): `Math.round` of the clamped
score. -/
noncomputable def balanceScore (ws : List ℚ) : ℤ :=
  round (balanceScoreReal ws)

/-- The spec's formula, for refinement: `clamp(100 − 10σ, 0, 100)` as a
function of the standard deviation `σ` alone. -/
noncomputable def specBalanceFromSigma (σ : ℝ) : ℝ :=
  max 0 (min 100 (100 - 10 * σ))

/-- Per-bucket counters expressed as `countP`, used to reason about the
loop's fold. -/
def bucketCount (b : Bucket) (issues : List Issue) : Nat :=
  issues.countP (fun i => classifyStatus i.statusName = b)

/-! ### Release notes generator (`generateReleaseNotes`, lines 611-742) -/

/-- The five release-note categories. -/
inductive ReleaseCategory where
  | features
  | improvements
  | bugFixes
  | breakingChanges
  | deprecated
deriving Repr, DecidableEq

/-- A category entry (lines 645-651): key, summary, and the description
truncated to its first 200 characters when present. -/
structure ReleaseItem where
  key : String
  summary : String
  description : Option String
deriving Repr, DecidableEq

def releaseItem (i : Issue) : ReleaseItem :=
  { key := i.key, summary := i.summary,
    description := i.description.map (fun d => String.mk (d.data.take 200)) }

/-- The categorization chain of `generateReleaseNotes` (lines 641-673):
first match wins on the lowercased labels and issue type. -/
def categorize (i : Issue) : ReleaseCategory :=
  if "breaking-change" ∈ i.labels.map lowerStr ∨ "breaking" ∈ i.labels.map lowerStr then
    ReleaseCategory.breakingChanges
  else if "deprecated" ∈ i.labels.map lowerStr then
    ReleaseCategory.deprecated
  else if lowerStr i.issuetype = "bug" ∨ lowerStr i.issuetype = "defect" then
    ReleaseCategory.bugFixes
  else if lowerStr i.issuetype = "story" ∨ lowerStr i.issuetype = "feature" ∨
      lowerStr i.issuetype = "new feature" then
    ReleaseCategory.features
  else
    ReleaseCategory.improvements

/-- The five category lists, in the record of lines 631-637. -/
structure ReleaseCategories where
  features : List ReleaseItem
  improvements : List ReleaseItem
  bugFixes : List ReleaseItem
  breakingChanges : List ReleaseItem
  deprecated : List ReleaseItem
deriving Repr, DecidableEq

/-- One iteration of the categorization loop: push the item onto the list
of its category. -/
def addToCategory (cats : ReleaseCategories) (i : Issue) : ReleaseCategories :=
  match categorize i with
  | ReleaseCategory.features => { cats with features := cats.features ++ [releaseItem i] }
  | ReleaseCategory.improvements =>
    { cats with improvements := cats.improvements ++ [releaseItem i] }
  | ReleaseCategory.bugFixes => { cats with bugFixes := cats.bugFixes ++ [releaseItem i] }
  | ReleaseCategory.breakingChanges =>
    { cats with breakingChanges := cats.breakingChanges ++ [releaseItem i] }
  | ReleaseCategory.deprecated => { cats with deprecated := cats.deprecated ++ [releaseItem i] }

/-- The category lists built by the loop of lines 641-673. -/
def categorizeAll (issues : List Issue) : ReleaseCategories :=
  issues.foldl addToCategory ⟨[], [], [], [], []⟩

/-! ### Issue text classifier (`analyzeIssueText`, lines 437-567) -/

def bugKeywords : List String :=
  ["bug", "error", "crash", "fail", "broken", "not working", "issue", "problem", "fix"]

def featureKeywords : List String :=
  ["feature", "add", "new", "implement", "create", "develop", "build"]

def storyKeywords : List String :=
  ["as a user", "as an admin", "i want", "so that", "user story"]

def epicKeywords : List String :=
  ["epic", "initiative", "large", "multiple sprints"]

def improvementKeywords : List String :=
  ["improve", "enhance", "optimize", "refactor", "performance"]

def urgentKeywords : List String :=
  ["urgent", "critical", "blocker", "asap", "emergency", "production down"]

def highKeywords : List String :=
  ["high priority", "important", "severe", "major"]

def lowKeywords : List String :=
  ["low priority", "minor", "nice to have", "when possible"]

def simpleIndicators : List String :=
  ["simple", "easy", "quick", "small", "typo", "config change"]

def complexIndicators : List String :=
  ["complex", "large", "multiple", "refactor", "architecture", "rewrite"]

def hugeIndicators : List String :=
  ["entire", "complete overhaul", "from scratch", "migration"]

/-- The label-pattern table of lines 482-490, in object-entry order. -/
def labelPatterns : List (String × List String) :=
  [("frontend",
      ["ui", "frontend", "css", "react", "vue", "angular", "html", "button", "page", "component"]),
   ("backend", ["api", "backend", "server", "database", "endpoint", "service"]),
   ("infrastructure", ["deploy", "ci", "cd", "pipeline", "docker", "kubernetes", "aws", "cloud"]),
   ("security", ["security", "auth", "permission", "vulnerability", "ssl", "encryption"]),
   ("performance", ["performance", "slow", "optimize", "speed", "memory", "cpu"]),
   ("documentation", ["doc", "readme", "guide", "tutorial"]),
   ("testing", ["test", "qa", "automation", "e2e", "unit test"])]

/-- `keywords.some(k => textLower.includes(k))`. -/
def includesAny (textLower : String) (ks : List String) : Bool :=
  ks.any (fun k => strIncludes textLower k)

/-- Type inference (lines 444-462): fixed keyword sets in priority order,
default `Task`. -/
def suggestedTypeOf (textLower : String) : String :=
  if includesAny textLower epicKeywords then "Epic"
  else if includesAny textLower storyKeywords then "Story"
  else if includesAny textLower bugKeywords then "Bug"
  else if includesAny textLower featureKeywords then "Story"
  else if includesAny textLower improvementKeywords then "Improvement"
  else "Task"

/-- Priority inference (lines 465-477), default `Medium`. -/
def suggestedPriorityOf (textLower : String) : String :=
  if includesAny textLower urgentKeywords then "Critical"
  else if includesAny textLower highKeywords then "High"
  else if includesAny textLower lowKeywords then "Low"
  else "Medium"

/-- Label suggestion (lines 480-496): one label per matching pattern row,
in table order. -/
def suggestedLabelsOf (textLower : String) : List String :=
  (labelPatterns.filter (fun p => includesAny textLower p.2)).map (fun p => p.1)

/-- Story-point estimation (lines 499-511), default 3. -/
def estimatedStoryPointsOf (textLower : String) : Nat :=
  if includesAny textLower hugeIndicators then 13
  else if includesAny textLower complexIndicators then 8
  else if includesAny textLower simpleIndicators then 1
  else 3

/-- The words feeding the similar-issue lookup (line 518): split on
whitespace, keep the words longer than 4 characters. -/
def searchWords (text : String) : List String :=
  (text.split Char.isWhitespace).filter (fun w => w.length > 4)

/-- The secondary-lookup query (line 519): the first 3 qualifying words
joined with `" OR "`. -/
def searchTerms (text : String) : String :=
  String.intercalate " OR " ((searchWords text).take 3)

/-- The result record of `analyzeIssueText` (the `suggestedComponents`
field is constantly `[]` in the source and is omitted). -/
structure SmartIssueAnalysis where
  suggestedType : String
  suggestedPriority : String
  suggestedLabels : List String
  estimatedStoryPoints : Nat
  similarIssues : List (String × String × ℚ)
  suggestions : List String
deriving Repr, DecidableEq

/-- `analyzeIssueText` (lines 437-567).  The secondary similar-issue
search is the only fallible step; its outcome is passed in as an
`Except`: `Except.error` models the `catch` path of lines 516-537, in
which the loop over search hits is skipped and `similarIssues` stays
empty, and `Except.ok hits` models a successful search returning up to 5
hits, each recorded with the constant similarity `0.7`.  The search is
only issued when the composed query is non-empty (line 521). -/
def analyzeIssueText (text : String)
    (searchOutcome : Except Unit (List (String × String))) : SmartIssueAnalysis :=
  let textLower := lowerStr text
  let sType := suggestedTypeOf textLower
  let sPriority := suggestedPriorityOf textLower
  let sLabels := suggestedLabelsOf textLower
  let points := estimatedStoryPointsOf textLower
  let similar : List (String × String × ℚ) :=
    if searchTerms text = "" then []
    else
      match searchOutcome with
      | Except.error _ => []
      | Except.ok hits => hits.map (fun h => (h.1, h.2, (7 : ℚ) / 10))
  let tips :=
    (if text.length < 50 then ["Consider adding more detail to the description"] else []) ++
    (if sType = "Bug" ∧ strIncludes textLower "reproduce" = false then
        ["Add steps to reproduce the bug"]
      else []) ++
    (if sType = "Story" ∧ strIncludes textLower "acceptance" = false then
        ["Consider adding acceptance criteria"]
      else []) ++
    (if similar.length > 0 then
        ["Found " ++ toString similar.length ++ " potentially related issue(s) - check for duplicates"]
      else [])
  { suggestedType := sType, suggestedPriority := sPriority, suggestedLabels := sLabels,
    estimatedStoryPoints := points, similarIssues := similar, suggestions := tips }

/-- A closed (`status = "Closed"`) but unassigned issue, exercising the
`status !== 'done'` guard of the risk checks. -/
def closedUnassignedIssue : Issue :=
  { key := "NX-1", summary := "cleanup", statusName := "Closed", assignee := none,
    priority := some "High", issuetype := "Task", labels := [], description := none }

/-- An issue with no assignee, exercising the grouping loop and the
`totalIssues` field of the dashboard. -/
def unassignedIssue : Issue :=
  { key := "NX-2", summary := "orphan", statusName := "To Do", assignee := none,
    priority := some "Low", issuetype := "Task", labels := [], description := none }

lemma bdStep_total (bd : IssueBreakdown) (i : Issue) :
    (bdStep bd i).total = bd.total := by
  unfold bdStep
  cases classifyStatus i.statusName <;> rfl

lemma foldl_bdStep_spec (issues : List Issue) (bd : IssueBreakdown) :
    issues.foldl bdStep bd =
      { total := bd.total
        done := bd.done + bucketCount Bucket.done issues
        inProgress := bd.inProgress + bucketCount Bucket.inProgress issues
        todo := bd.todo + bucketCount Bucket.todo issues
        blocked := bd.blocked + bucketCount Bucket.blocked issues } := by
  induction issues generalizing bd with
  | nil => simp [bucketCount]
  | cons i rest ih =>
    simp only [List.foldl_cons, ih]
    unfold bdStep bucketCount
    rcases hc : classifyStatus i.statusName <;>
      simp [List.countP_cons, hc, bucketCount] <;> omega

lemma bucketCount_partition (issues : List Issue) :
    bucketCount Bucket.done issues + bucketCount Bucket.inProgress issues +
      bucketCount Bucket.todo issues + bucketCount Bucket.blocked issues =
      issues.length := by
  induction issues with
  | nil => simp [bucketCount]
  | cons i rest ih =>
    unfold bucketCount at *
    rcases hc : classifyStatus i.statusName <;>
      simp [List.countP_cons, hc] <;> omega

/-- C1: the status classification of `analyzeSprintHealth` is a total,
exclusive partition, so the returned breakdown satisfies
`done + inProgress + todo + blocked = total`. -/
theorem issueBreakdown_partition (issues : List Issue) :
    (issueBreakdown issues).done + (issueBreakdown issues).inProgress +
      (issueBreakdown issues).todo + (issueBreakdown issues).blocked =
      (issueBreakdown issues).total := by
  unfold issueBreakdown
  rw [foldl_bdStep_spec]
  simpa using bucketCount_partition issues

/-- C2: for every issue collection the health score lies in `[0, 100]`:
the raw score (100 minus the four deductions) is clamped by
`max 0 (min 100 ·)`. -/
theorem healthScore_in_range (issues : List Issue) :
    0 ≤ healthScore issues ∧ healthScore issues ≤ 100 ∧
      healthScore issues = max 0 (min 100 (healthScoreRaw issues)) := by
  refine ⟨le_max_left _ _, ?_, rfl⟩
  unfold healthScore
  rcases le_total (min 100 (healthScoreRaw issues)) 0 with h | h
  · rw [max_eq_left h]
    norm_num
  · rw [max_eq_right h]
    exact min_le_left _ _

/-- C8: on the empty issue collection, `analyzeSprintHealth` yields
`total = 0`, `completionRate = 0` (no division is performed),
`healthScore = 100 - 50 = 50`, and `healthStatus = at-risk`. -/
theorem analyzeSprintHealth_empty :
    (issueBreakdown []).total = 0 ∧
      completionRate (issueBreakdown []) = 0 ∧
      healthScore [] = 50 ∧
      healthStatus (healthScore []) = HealthStatus.atRisk := by
  have h50 : healthScore [] = 50 := by
    norm_num [healthScore, healthScoreRaw, completionRate, issueBreakdown]
  refine ⟨rfl, rfl, h50, ?_⟩
  rw [h50]
  decide

lemma risk_strings_ne (k : String) :
    ("Unassigned issue: " ++ k) ≠ ("No priority set: " ++ k) := by
  intro h
  have hlen := congrArg String.length h
  rw [String.length_append, String.length_append] at hlen
  have h1 : ("Unassigned issue: ").length = 18 := by decide
  have h2 : ("No priority set: ").length = 17 := by decide
  omega

/-- C6 counterexample: the risk guard is the exact string comparison
`status !== 'done'`, not "does not classify into the done bucket" — an
unassigned issue whose status is `Closed` classifies as done yet still
gets an "unassigned" risk. -/
theorem sprintRisks_done_bucket_counterexample :
    classifyStatus closedUnassignedIssue.statusName = Bucket.done ∧
      sprintRisks [closedUnassignedIssue] = ["Unassigned issue: NX-1"] := by
  decide

/-- C6 (amended): the loop appends, per issue and in order, an
"unassigned" risk exactly when the assignee is absent and the lowercased
status string differs from the exact string `"done"`, and a "no priority
set" risk exactly when the priority is absent and the lowercased status
string differs from `"done"` — so issues whose status is `closed` or
`resolved` (done bucket) are still flagged. -/
theorem sprintRisks_amended (issues : List Issue) (i : Issue) :
    sprintRisks issues = issues.flatMap issueRisks ∧
      (("Unassigned issue: " ++ i.key) ∈ issueRisks i ↔
        i.assignee = none ∧ lowerStr i.statusName ≠ "done") ∧
      (("No priority set: " ++ i.key) ∈ issueRisks i ↔
        i.priority = none ∧ lowerStr i.statusName ≠ "done") := by
  refine ⟨?_, ?_, ?_⟩
  · induction issues with
    | nil => rfl
    | cons j rest ih => simp [sprintRisks, ih]
  · unfold issueRisks
    by_cases h1 : i.assignee = none ∧ lowerStr i.statusName ≠ "done" <;>
      by_cases h2 : i.priority = none ∧ lowerStr i.statusName ≠ "done" <;>
        simp [h1, h2, risk_strings_ne i.key]
  · unfold issueRisks
    by_cases h1 : i.assignee = none ∧ lowerStr i.statusName ≠ "done" <;>
      by_cases h2 : i.priority = none ∧ lowerStr i.statusName ≠ "done" <;>
        simp [h1, h2, (risk_strings_ne i.key).symm]

/-- C5: the workload band is a function of the assigned-issue count alone
with inclusive upper bounds `≤2 / ≤5 / ≤8 / >8`, hence 2 is
underutilized, 3 optimal, 8 heavy and 9 overloaded. -/
theorem workloadStatus_thresholds (n : Nat) :
    (workloadStatus n = WorkloadBand.underutilized ↔ n ≤ 2) ∧
      (workloadStatus n = WorkloadBand.optimal ↔ 3 ≤ n ∧ n ≤ 5) ∧
      (workloadStatus n = WorkloadBand.heavy ↔ 6 ≤ n ∧ n ≤ 8) ∧
      (workloadStatus n = WorkloadBand.overloaded ↔ 9 ≤ n) ∧
      workloadStatus 2 = WorkloadBand.underutilized ∧
      workloadStatus 3 = WorkloadBand.optimal ∧
      workloadStatus 8 = WorkloadBand.heavy ∧
      workloadStatus 9 = WorkloadBand.overloaded := by
  refine ⟨?_, ?_, ?_, ?_, by decide, by decide, by decide, by decide⟩ <;>
    (unfold workloadStatus; split_ifs with h1 h2 h3 <;> simp <;> omega)

/-- C10: the workload dashboard counts an issue as in-progress when its
lowercased status contains `progress` or `review` as a substring, which
strictly extends the sprint analyzer's exact in-progress set
`{in progress, in review, code review}`: every exactly-matched status is
also substring-matched, while `Peer Review` and `Progressing` are
in-progress for the dashboard but land in the todo bucket of the sprint
analyzer. -/
theorem workload_vs_sprint_inProgress :
    (∀ s : String, classifyStatus s = Bucket.inProgress → countsInProgressWorkload s = true) ∧
      countsInProgressWorkload "Peer Review" = true ∧
      classifyStatus "Peer Review" = Bucket.todo ∧
      countsInProgressWorkload "Progressing" = true ∧
      classifyStatus "Progressing" = Bucket.todo := by
  refine ⟨?_, by decide, by decide, by decide, by decide⟩
  intro s h
  unfold classifyStatus at h
  split_ifs at h with h1 h2 h3
  unfold countsInProgressWorkload
  rcases h2 with h2 | h2 | h2 <;> rw [h2] <;> decide

/-- C10 witness: an exact `In Progress` status is also counted by the
dashboard's substring test. -/
theorem workload_vs_sprint_inProgress_witness :
    countsInProgressWorkload "In Progress" = true :=
  workload_vs_sprint_inProgress.1 "In Progress" (by decide)

lemma groupByAssigneeAux_filter (issues : List Issue) (acc : List (String × List Issue)) :
    groupByAssigneeAux acc issues =
      groupByAssigneeAux acc (issues.filter (fun i => i.assignee.isSome)) := by
  induction issues generalizing acc with
  | nil => rfl
  | cons i rest ih =>
    rcases ha : i.assignee with _ | name <;>
      simp [groupByAssigneeAux, List.filter_cons, ha, ih]

/-- C7 counterexample: an issue with no assignee contributes to no member
and to no workload, yet it *is* counted by the dashboard's `totalIssues`
field, which is the raw length of the fetched collection. -/
theorem workloadDashboard_totalIssues_counterexample :
    (dashboardCore [unassignedIssue]).teamSize = 0 ∧
      (dashboardCore [unassignedIssue]).workloads = [] ∧
      (dashboardCore [unassignedIssue]).totalIssues = 1 := by
  decide

/-- C7 (amended): issues without an assignee are excluded from the
grouping, hence from every member's metrics and from the workload list
feeding the average and the balance score; but `totalIssues` is the raw
length of the fetched collection, unassigned issues included. -/
theorem workloadDashboard_unassigned_amended (issues : List Issue) :
    groupByAssignee issues = groupByAssignee (issues.filter (fun i => i.assignee.isSome)) ∧
      (dashboardCore issues).workloads =
        (dashboardCore (issues.filter (fun i => i.assignee.isSome))).workloads ∧
      (dashboardCore issues).teamSize =
        (dashboardCore (issues.filter (fun i => i.assignee.isSome))).teamSize ∧
      (dashboardCore issues).totalIssues = issues.length := by
  have hg : groupByAssignee issues =
      groupByAssignee (issues.filter (fun i => i.assignee.isSome)) :=
    groupByAssigneeAux_filter issues []
  exact ⟨hg, by simp [dashboardCore, hg], by simp [dashboardCore, hg], rfl⟩

/-- C4: the balance score is `round (clamp (100 − 10σ) 0 100)` for `σ` the
population standard deviation of the per-member workloads; it is `100`
when all members carry the same load, and it is antitone in `σ`. -/
theorem balanceScore_spec (ws : List ℚ) (c : ℚ) :
    balanceScore ws = round (specBalanceFromSigma (stdDev ws)) ∧
      (ws ≠ [] → (∀ w ∈ ws, w = c) → balanceScore ws = 100) ∧
      (∀ σ₁ σ₂ : ℝ, σ₁ < σ₂ →
        round (specBalanceFromSigma σ₂) ≤ round (specBalanceFromSigma σ₁)) := by
  refine ⟨?_, ?_, ?_⟩
  · unfold balanceScore balanceScoreReal specBalanceFromSigma
    rw [mul_comm]
  · intro hne hall
    have hlen : ws.length ≠ 0 := by
      simpa [List.length_eq_zero] using hne
    have havg : ws.sum / (ws.length : ℚ) = c := by
      rw [List.sum_eq_card_nsmul ws c hall, nsmul_eq_mul]
      field_simp
    have hvar : popVariance ws = 0 := by
      unfold popVariance
      rw [if_neg hlen]
      have hmap : (ws.map (fun w => (w - ws.sum / (ws.length : ℚ)) ^ 2)).sum = 0 := by
        apply List.sum_eq_zero
        intro x hx
        rcases List.mem_map.mp hx with ⟨w, hw, rfl⟩
        rw [havg, hall w hw]
        ring
      rw [hmap, zero_div]
    have hstd : stdDev ws = 0 := by
      unfold stdDev
      rw [hvar]
      simp
    unfold balanceScore balanceScoreReal
    rw [hstd]
    norm_num
  · intro σ₁ σ₂ hlt
    have hle : specBalanceFromSigma σ₂ ≤ specBalanceFromSigma σ₁ := by
      unfold specBalanceFromSigma
      exact max_le_max le_rfl (min_le_min le_rfl (by linarith))
    rw [round_eq, round_eq]
    exact Int.floor_le_floor (by linarith)

/-- C4 witness: a team of three members with three issues each has a
perfectly balanced score of 100. -/
theorem balanceScore_spec_witness : balanceScore [3, 3, 3] = 100 :=
  (balanceScore_spec [3, 3, 3] 3).2.1 (by simp) (by simp)

lemma foldl_addToCategory_spec (issues : List Issue) (acc : ReleaseCategories) :
    issues.foldl addToCategory acc =
      { features := acc.features ++
          (issues.filter fun i => decide (categorize i = ReleaseCategory.features)).map releaseItem
        improvements := acc.improvements ++
          (issues.filter fun i =>
            decide (categorize i = ReleaseCategory.improvements)).map releaseItem
        bugFixes := acc.bugFixes ++
          (issues.filter fun i => decide (categorize i = ReleaseCategory.bugFixes)).map releaseItem
        breakingChanges := acc.breakingChanges ++
          (issues.filter fun i =>
            decide (categorize i = ReleaseCategory.breakingChanges)).map releaseItem
        deprecated := acc.deprecated ++
          (issues.filter fun i =>
            decide (categorize i = ReleaseCategory.deprecated)).map releaseItem } := by
  induction issues generalizing acc with
  | nil => simp
  | cons i rest ih =>
    simp only [List.foldl_cons, ih]
    rcases hc : categorize i <;>
      simp [addToCategory, hc, List.filter_cons]

lemma categorize_count_partition (issues : List Issue) :
    issues.countP (fun i => decide (categorize i = ReleaseCategory.features)) +
      issues.countP (fun i => decide (categorize i = ReleaseCategory.improvements)) +
      issues.countP (fun i => decide (categorize i = ReleaseCategory.bugFixes)) +
      issues.countP (fun i => decide (categorize i = ReleaseCategory.breakingChanges)) +
      issues.countP (fun i => decide (categorize i = ReleaseCategory.deprecated)) =
      issues.length := by
  induction issues with
  | nil => simp
  | cons i rest ih =>
    rcases hc : categorize i <;> simp [List.countP_cons, hc] <;> omega

/-- C3: release-note categorization is an exhaustive, exclusive partition
decided per issue by the first-match chain `breaking label → deprecated
label → bug/defect type → story/feature/new-feature type → improvements`:
each category list is exactly the input issues of that category in input
order, and the five lengths sum to the input length. -/
theorem generateReleaseNotes_partition (issues : List Issue) :
    (categorizeAll issues).features =
      (issues.filter fun i => decide (categorize i = ReleaseCategory.features)).map releaseItem ∧
    (categorizeAll issues).improvements =
      (issues.filter fun i =>
        decide (categorize i = ReleaseCategory.improvements)).map releaseItem ∧
    (categorizeAll issues).bugFixes =
      (issues.filter fun i => decide (categorize i = ReleaseCategory.bugFixes)).map releaseItem ∧
    (categorizeAll issues).breakingChanges =
      (issues.filter fun i =>
        decide (categorize i = ReleaseCategory.breakingChanges)).map releaseItem ∧
    (categorizeAll issues).deprecated =
      (issues.filter fun i => decide (categorize i = ReleaseCategory.deprecated)).map releaseItem ∧
    (categorizeAll issues).features.length + (categorizeAll issues).improvements.length +
      (categorizeAll issues).bugFixes.length + (categorizeAll issues).breakingChanges.length +
      (categorizeAll issues).deprecated.length = issues.length := by
  have h := foldl_addToCategory_spec issues ⟨[], [], [], [], []⟩
  unfold categorizeAll
  rw [h]
  refine ⟨by simp, by simp, by simp, by simp, by simp, ?_⟩
  simp only [List.nil_append, List.length_map, ← List.countP_eq_length_filter]
  exact categorize_count_partition issues

/-- C9: when the similar-issue search fails, the failure is absorbed:
`similarIssues` is empty, and the four suggestion fields are exactly the
keyword classifications of the input text — identical to what a
successful search would have produced — so the operation as a whole still
returns a result. -/
theorem analyzeIssueText_search_failure (text : String) (e : Unit)
    (hits : List (String × String)) :
    (analyzeIssueText text (Except.error e)).similarIssues = [] ∧
      (analyzeIssueText text (Except.error e)).suggestedType =
        suggestedTypeOf (lowerStr text) ∧
      (analyzeIssueText text (Except.error e)).suggestedPriority =
        suggestedPriorityOf (lowerStr text) ∧
      (analyzeIssueText text (Except.error e)).suggestedLabels =
        suggestedLabelsOf (lowerStr text) ∧
      (analyzeIssueText text (Except.error e)).estimatedStoryPoints =
        estimatedStoryPointsOf (lowerStr text) ∧
      (analyzeIssueText text (Except.error e)).suggestedType =
        (analyzeIssueText text (Except.ok hits)).suggestedType ∧
      (analyzeIssueText text (Except.error e)).suggestedPriority =
        (analyzeIssueText text (Except.ok hits)).suggestedPriority ∧
      (analyzeIssueText text (Except.error e)).suggestedLabels =
        (analyzeIssueText text (Except.ok hits)).suggestedLabels ∧
      (analyzeIssueText text (Except.error e)).estimatedStoryPoints =
        (analyzeIssueText text (Except.ok hits)).estimatedStoryPoints := by
  refine ⟨?_, rfl, rfl, rfl, rfl, rfl, rfl, rfl, rfl⟩
  simp [analyzeIssueText]

end NexusAI
